import Mathlib

/-!
# Verification of the shader build / uniform upload pipeline

A shallow embedding of `src/shader.rs` and `src/raytracing.rs` of the
opengl-raytracing-engine repository.  The OpenGL driver is modelled as an
explicit state (`GLState`) carrying the call traces the code emits
(create / source / compile / attach / link / delete / use-program /
uniform-location / uniform-write) together with driver oracles for the
statuses and info logs the driver reports back.  Process-aborting panics
are modelled as `Except.error` carrying the panic message and the GL
state at the moment of the abort.
-/

/-- GLenum value of `gl::VERTEX_SHADER`. -/
def GL_VERTEX_SHADER : Nat := 35633

/-- GLenum value of `gl::FRAGMENT_SHADER`. -/
def GL_FRAGMENT_SHADER : Nat := 35632

/-- A value written to a uniform location, tagged by the typed GL upload
call used (`Uniform1ui`, `Uniform1f`, `Uniform2f`, `Uniform3f`,
`UniformMatrix4fv`).  Scalars are modelled as rationals: the code only
moves the values, it never computes with them. -/
inductive UniformValue where
  | u1ui (v : Nat)
  | f1 (v : ℚ)
  | f2 (x y : ℚ)
  | f3 (x y z : ℚ)
  | m4 (entries : List ℚ)
deriving DecidableEq

/-- The modelled OpenGL driver state: id allocators, the current program
binding, the traces of calls made by the embedded code, the driver
oracles (compile / link status and info logs, uniform locations), and
`mem`, the bytes a freshly allocated 512-byte log buffer happens to
contain (`Vec::with_capacity(512)` followed by `set_len(511)` exposes
uninitialized memory). -/
structure GLState where
  nextShaderId : Nat
  nextProgramId : Nat
  currentProgram : Nat
  createdShaders : List (Nat × Nat)
  createdPrograms : List Nat
  sourced : List (Nat × String)
  compileCalls : List Nat
  attachCalls : List (Nat × Nat)
  linkCalls : List Nat
  deleteCalls : List Nat
  useProgramCalls : List Nat
  locLookups : List (Nat × String)
  uniformWrites : List (Int × UniformValue)
  compileStatus : Nat → Bool
  shaderLog : Nat → String
  linkStatus : Nat → Bool
  programLog : Nat → String
  uniformLoc : Nat → String → Int
  mem : List Char

/-- `struct Shader { pub pid: u32 }` from `src/shader.rs`. -/
structure Shader where
  pid : Nat

/-- `struct ShaderBuilder { pid: u32, shaders: Vec<u32> }` from
`src/shader.rs`. -/
structure ShaderBuilder where
  pid : Nat
  shaders : List Nat

/-- `enum ShaderType { Vertex, Fragment }` from `src/shader.rs`. -/
inductive ShaderType where
  | Vertex
  | Fragment

/-- `impl Into<GLenum> for ShaderType` from `src/shader.rs`. -/
def ShaderType.into : ShaderType → Nat
  | .Vertex => GL_VERTEX_SHADER
  | .Fragment => GL_FRAGMENT_SHADER

/-- `ShaderType::from_ext` from `src/shader.rs`: `"vert"` and `"frag"`
map to the two stages, every other extension string is an `Err`. -/
def ShaderType.from_ext (ext : String) : Except String ShaderType :=
  if ext = "vert" then .ok ShaderType.Vertex
  else if ext = "frag" then .ok ShaderType.Fragment
  else .error ext

/-- Splits a character list at every occurrence of the separator `c`,
keeping empty groups, like `str::split` does. -/
def splitOnChar (c : Char) : List Char → List (List Char)
  | [] => [[]]
  | a :: as =>
    match splitOnChar c as with
    | [] => [[a]]
    | g :: gs => if a = c then [] :: g :: gs else (a :: g) :: gs

/-- Model of `Path::file_name` for the paths handed to `attach_shader`:
the last non-empty, non-`"."` component of the `/`-separated path, and
none for `".."`. -/
def pathFileName (path : String) : Option (List Char) :=
  match ((splitOnChar '/' path.toList).filter
      (fun c => c != [] && c != ['.'])).getLast? with
  | some c => if c = ['.', '.'] then none else some c
  | none => none

/-- Model of `Path::extension`: the part of the file name after its last
dot, provided that dot is not the leading character; none when the file
name has no dot, or its only dot is the leading character. -/
def pathExtension (path : String) : Option String :=
  match pathFileName path with
  | none => none
  | some name =>
    let parts := splitOnChar '.' name
    if parts.length ≤ 1 then none
    else if parts.length = 2 && name.headD ' ' == '.' then none
    else (parts.getLast?).map String.mk

/-- The 511 bytes `String::from_utf8_lossy(&log)` reads out of the log
buffer after `glGet*InfoLog(_, 512, null, buf)`: the driver stores at
most 511 characters of the log followed by a NUL terminator, the rest of
the buffer keeps its previous (uninitialized) contents `mem`. -/
def glBufferRead (log : String) (mem : List Char) : String :=
  String.mk ((log.toList.take 511 ++ [Char.ofNat 0] ++ mem).take 511)

/-- `ShaderBuilder::new` from `src/shader.rs`: `gl::CreateProgram()`
allocates a fresh program handle; the stage list starts empty. -/
def ShaderBuilder.new (s : GLState) : ShaderBuilder × GLState :=
  ({ pid := s.nextProgramId, shaders := [] },
   { s with
      nextProgramId := s.nextProgramId + 1,
      createdPrograms := s.createdPrograms ++ [s.nextProgramId] })

/-- `ShaderBuilder::get_shader_err` from `src/shader.rs`:
`Ok("")` when the driver reports `COMPILE_STATUS == TRUE`, otherwise the
511 bytes read from the fixed log buffer as an `Err`. -/
def ShaderBuilder.get_shader_err (s : GLState) (shader_id : Nat) :
    Except String String :=
  if s.compileStatus shader_id then .ok ""
  else .error (glBufferRead (s.shaderLog shader_id) s.mem)

/-- `ShaderBuilder::get_linker_err` from `src/shader.rs`: same shape as
`get_shader_err`, reading `LINK_STATUS` and the program info log. -/
def ShaderBuilder.get_linker_err (b : ShaderBuilder) (s : GLState) :
    Except String String :=
  if s.linkStatus b.pid then .ok ""
  else .error (glBufferRead (s.programLog b.pid) s.mem)

/-- `ShaderBuilder::compile` from `src/shader.rs`.  In source order:
`gl::CreateShader` runs first, then `CString::new(..).unwrap()` panics
if the source holds a NUL byte, then `gl::ShaderSource`,
`gl::CompileShader`, and the status check, which panics with the
truncated driver log on failure; on success the new stage id is pushed
onto the builder's stage list. -/
def ShaderBuilder.compile (b : ShaderBuilder) (shader_src : String)
    (shader_type : ShaderType) (s : GLState) :
    Except (String × GLState) (ShaderBuilder × GLState) :=
  let shader := s.nextShaderId
  let s1 : GLState := { s with
    nextShaderId := s.nextShaderId + 1,
    createdShaders := s.createdShaders ++ [(shader, shader_type.into)] }
  if shader_src.toList.contains (Char.ofNat 0) then
    .error ("called Result::unwrap() on an Err value: NulError", s1)
  else
    let s2 : GLState := { s1 with sourced := s1.sourced ++ [(shader, shader_src)] }
    let s3 : GLState := { s2 with compileCalls := s2.compileCalls ++ [shader] }
    match ShaderBuilder.get_shader_err s3 shader with
    | .error err => .error ("ERROR::SHADER::COMPILATION_FAILED\n" ++ err, s3)
    | .ok _ => .ok ({ b with shaders := b.shaders ++ [shader] }, s3)

/-- `ShaderBuilder::attach_shader` from `src/shader.rs`: derive the
stage type from the path extension (panicking on an unknown extension or
a missing one), read the file (panicking on failure, modelled by the
file-system map `fs`), then forward to `compile`. -/
def ShaderBuilder.attach_shader (b : ShaderBuilder) (shader_path : String)
    (fs : String → Option String) (s : GLState) :
    Except (String × GLState) (ShaderBuilder × GLState) :=
  match pathExtension shader_path with
  | some ext =>
    match ShaderType.from_ext ext with
    | .error e => .error ("ERROR::SHADER::FAILED_TO_PARSE_EXTENSION\n" ++ e, s)
    | .ok shader_type =>
      match fs shader_path with
      | none => .error ("ERROR:SHADER:FAILED_TO_READ_FILE\n" ++ shader_path, s)
      | some shader_src => b.compile shader_src shader_type s
  | none => .error ("ERROR::SHADER::FAILED_TO_READ_EXTENSION", s)

/-- `ShaderBuilder::link` from `src/shader.rs`: attach every accumulated
stage, `gl::LinkProgram`, check the link status (panicking with the
truncated log on failure), delete every stage, and return the finished
`Shader` carrying the builder's program id. -/
def ShaderBuilder.link (b : ShaderBuilder) (s : GLState) :
    Except (String × GLState) (Shader × GLState) :=
  let s1 : GLState := { s with
    attachCalls := s.attachCalls ++ b.shaders.map (fun sh => (b.pid, sh)) }
  let s2 : GLState := { s1 with linkCalls := s1.linkCalls ++ [b.pid] }
  match ShaderBuilder.get_linker_err b s2 with
  | .error err => .error ("ERROR::SHADER::COMPILATION_FAILED\n" ++ err, s2)
  | .ok _ =>
    let s3 : GLState := { s2 with deleteCalls := s2.deleteCalls ++ b.shaders }
    .ok ({ pid := b.pid }, s3)

/-- `Shader::activate` from `src/shader.rs`: `gl::UseProgram(self.pid)`. -/
def Shader.activate (sh : Shader) (s : GLState) : GLState :=
  { s with
      currentProgram := sh.pid,
      useProgramCalls := s.useProgramCalls ++ [sh.pid] }

/-- Runs `compile` once per entry of `srcs`, threading builder and state,
stopping at the first panic: the meaning of "n successful chained
compile calls". -/
def ShaderBuilder.compileList (b : ShaderBuilder)
    (srcs : List (String × ShaderType)) (s : GLState) :
    Except (String × GLState) (ShaderBuilder × GLState) :=
  match srcs with
  | [] => .ok (b, s)
  | (src, ty) :: rest =>
    match b.compile src ty s with
    | .error e => .error e
    | .ok (b2, s2) => b2.compileList rest s2

/-- `glm::Vec2`, modelled with rational components. -/
structure Vec2 where
  x : ℚ
  y : ℚ
deriving DecidableEq

/-- `glm::Vec3`, modelled with rational components. -/
structure Vec3 where
  x : ℚ
  y : ℚ
  z : ℚ
deriving DecidableEq

/-- `glm::Vec4`, modelled with rational components. -/
structure Vec4 where
  x : ℚ
  y : ℚ
  z : ℚ
  w : ℚ
deriving DecidableEq

/-- `glm::Mat4`, carried opaquely: the code only forwards the matrix to
the upload call, it never inspects it. -/
structure Mat4 where
  entries : List ℚ
deriving DecidableEq

/-- `glm::zero()` for `Vec3`. -/
def Vec3.zero : Vec3 := ⟨0, 0, 0⟩

/-- `glm::zero()` for `Vec4`. -/
def Vec4.zero : Vec4 := ⟨0, 0, 0, 0⟩

/-- `struct RTSettings` from `src/raytracing.rs`. -/
structure RTSettings where
  max_bounces : Nat
  rays_per_frag : Nat
  diverge_strength : ℚ

/-- `struct RTMaterial` from `src/raytracing.rs`. -/
structure RTMaterial where
  color : Vec4
  emission_color : Vec4
  specular_color : Vec4
  smoothness : ℚ
deriving DecidableEq

/-- `RTMaterial::new` from `src/raytracing.rs`: all colors zero,
smoothness `0.0`. -/
def RTMaterial.new : RTMaterial :=
  { color := Vec4.zero, emission_color := Vec4.zero,
    specular_color := Vec4.zero, smoothness := 0 }

/-- `struct RTSphere` from `src/raytracing.rs`. -/
structure RTSphere where
  center : Vec3
  radius : ℚ
  material : RTMaterial
deriving DecidableEq

/-- `RTSphere::new` from `src/raytracing.rs`: zero center, radius `1.0`,
blank material. -/
def RTSphere.new : RTSphere :=
  { center := Vec3.zero, radius := 1, material := RTMaterial.new }

/-- `struct RTCamera` from `src/raytracing.rs`. -/
structure RTCamera where
  screen_size : Vec2
  fov : ℚ
  focus_distance : ℚ
  pos : Vec3
  local_to_world : Mat4

/-- The `GLint` the driver hands back for `GetIntegerv(CURRENT_PROGRAM)`:
the current program's `u32` id reinterpreted as a signed 32-bit value. -/
def glintOfU32 (n : Nat) : Int :=
  if n < 2 ^ 31 then (n : Int) else (n : Int) - 2 ^ 32

/-- Rust's `as u32` cast of an `i32`: reinterpret the bit pattern,
i.e. reduce modulo `2^32`. -/
def u32OfGlint (i : Int) : Nat := (i % 2 ^ 32).toNat

/-- Modelled from the spec: `Shader::get_uniform_location` is called from
`src/raytracing.rs` but its definition is not among the given source
files.  Per the spec (section 4.3), uniform locations are looked up by
the dotted name against the target program, with unmatched names
resolving silently to a no-op location.  Modelled as a
`glGetUniformLocation` oracle query on the shader's program id, recorded
in the lookup trace. -/
def Shader.get_uniform_location (sh : Shader) (name : String) (s : GLState) :
    Int × GLState :=
  (s.uniformLoc sh.pid name,
   { s with locLookups := s.locLookups ++ [(sh.pid, name)] })

/-- Modelled from the spec: `Shader::set_uniform_mat4` is called from
`src/raytracing.rs` but its definition is not among the given source
files.  Per the spec (section 4.3), it writes the 4×4 matrix via the
matrix uniform-upload call to the location looked up for the given name,
leaving the program binding untouched. -/
def Shader.set_uniform_mat4 (sh : Shader) (name : String) (m : Mat4)
    (s : GLState) : GLState :=
  let ls := sh.get_uniform_location name s
  { ls.2 with
      uniformWrites := ls.2.uniformWrites ++ [(ls.1, UniformValue.m4 m.entries)] }

/-- `RTSettings::send_uniform` from `src/raytracing.rs`: save the current
program, activate the target shader, write the three fields to the
locations of the dotted names, and switch back with
`gl::UseProgram(prev_pid as u32)`. -/
def RTSettings.send_uniform (self : RTSettings) (shader : Shader)
    (uniform_name : String) (s : GLState) : GLState :=
  let prev_pid : Int := glintOfU32 s.currentProgram
  let s1 := shader.activate s
  let ls1 := shader.get_uniform_location (uniform_name ++ ".maxBounces") s1
  let s2 : GLState := { ls1.2 with
    uniformWrites := ls1.2.uniformWrites ++ [(ls1.1, UniformValue.u1ui self.max_bounces)] }
  let ls2 := shader.get_uniform_location (uniform_name ++ ".raysPerFrag") s2
  let s3 : GLState := { ls2.2 with
    uniformWrites := ls2.2.uniformWrites ++ [(ls2.1, UniformValue.u1ui self.rays_per_frag)] }
  let ls3 := shader.get_uniform_location (uniform_name ++ ".divergeStrength") s3
  let s4 : GLState := { ls3.2 with
    uniformWrites := ls3.2.uniformWrites ++ [(ls3.1, UniformValue.f1 self.diverge_strength)] }
  { s4 with
      currentProgram := u32OfGlint prev_pid,
      useProgramCalls := s4.useProgramCalls ++ [u32OfGlint prev_pid] }

/-- `RTCamera::send_uniform` from `src/raytracing.rs`: save the current
program, activate the target shader, write the five fields to the
locations of the dotted names (the matrix through `set_uniform_mat4`),
and switch back with `gl::UseProgram(prev_pid as u32)`. -/
def RTCamera.send_uniform (self : RTCamera) (shader : Shader)
    (uniform_name : String) (s : GLState) : GLState :=
  let prev_pid : Int := glintOfU32 s.currentProgram
  let s1 := shader.activate s
  let ls1 := shader.get_uniform_location (uniform_name ++ ".screenSize") s1
  let s2 : GLState := { ls1.2 with
    uniformWrites := ls1.2.uniformWrites ++
      [(ls1.1, UniformValue.f2 self.screen_size.x self.screen_size.y)] }
  let ls2 := shader.get_uniform_location (uniform_name ++ ".fov") s2
  let s3 : GLState := { ls2.2 with
    uniformWrites := ls2.2.uniformWrites ++ [(ls2.1, UniformValue.f1 self.fov)] }
  let ls3 := shader.get_uniform_location (uniform_name ++ ".focusDistance") s3
  let s4 : GLState := { ls3.2 with
    uniformWrites := ls3.2.uniformWrites ++ [(ls3.1, UniformValue.f1 self.focus_distance)] }
  let ls4 := shader.get_uniform_location (uniform_name ++ ".pos") s4
  let s5 : GLState := { ls4.2 with
    uniformWrites := ls4.2.uniformWrites ++
      [(ls4.1, UniformValue.f3 self.pos.x self.pos.y self.pos.z)] }
  let s6 := shader.set_uniform_mat4 (uniform_name ++ ".localToWorld")
    self.local_to_world s5
  { s6 with
      currentProgram := u32OfGlint prev_pid,
      useProgramCalls := s6.useProgramCalls ++ [u32OfGlint prev_pid] }

/-- Well-formedness of the driver state: every allocated program handle
is below the allocator's next id, so freshly created handles are new. -/
def GLState.WF (s : GLState) : Prop :=
  ∀ p ∈ s.createdPrograms, p < s.nextProgramId

/-- The panic message of an aborting run, when the run aborted. -/
def errMsgOf {α : Type} : Except (String × GLState) α → Option String
  | .error (msg, _) => some msg
  | .ok _ => none

/-- The GL state at the moment of the abort, when the run aborted. -/
def errStateOf {α : Type} : Except (String × GLState) α → Option GLState
  | .error (_, st) => some st
  | .ok _ => none

/-- A concrete, benign driver state: fresh allocators, nothing bound,
every status query reports success, all logs empty. -/
def glState0 : GLState where
  nextShaderId := 1
  nextProgramId := 1
  currentProgram := 0
  createdShaders := []
  createdPrograms := []
  sourced := []
  compileCalls := []
  attachCalls := []
  linkCalls := []
  deleteCalls := []
  useProgramCalls := []
  locLookups := []
  uniformWrites := []
  compileStatus := fun _ => true
  shaderLog := fun _ => ""
  linkStatus := fun _ => true
  programLog := fun _ => ""
  uniformLoc := fun _ _ => 7
  mem := []

/-- A concrete driver state whose compiler rejects every shader with the
log `"0:1: syntax error"`. -/
def glStateFail : GLState :=
  { glState0 with
      compileStatus := fun _ => false,
      shaderLog := fun _ => "0:1: syntax error" }

/-- Whether `y` starts with `x`, as a computable check. -/
def startsSeq : List Char → List Char → Bool
  | [], _ => true
  | _ :: _, [] => false
  | a :: as, b :: bs => a == b && startsSeq as bs

/-- Whether `x` occurs contiguously inside `y`, as a computable check:
the "contains" relation on character sequences. -/
def containsSeq (x : List Char) : List Char → Bool
  | [] => startsSeq x []
  | b :: bs => startsSeq x (b :: bs) || containsSeq x bs

theorem startsSeq_append (x r : List Char) : startsSeq x (x ++ r) = true := by
  induction x with
  | nil => rfl
  | cons a as ih => simp [startsSeq, ih]

theorem containsSeq_append (l x r : List Char) :
    containsSeq x (l ++ (x ++ r)) = true := by
  induction l with
  | nil =>
    cases hx : x ++ r with
    | nil => simp_all [containsSeq, startsSeq]
    | cons b bs => simp [containsSeq, ← hx, startsSeq_append]
  | cons a as ih => simp [containsSeq, ih]

theorem u32_glint_roundtrip (n : Nat) (h : n < 2 ^ 32) :
    u32OfGlint (glintOfU32 n) = n := by
  unfold u32OfGlint glintOfU32
  split <;> omega

/-- Claim C9: `RTSphere::new()` returns a sphere with radius exactly
`1.0` (in particular nonzero), center the zero vector, and material
`RTMaterial::new()`, whose color vectors are all zero and whose
smoothness is `0.0`. -/
theorem C9_sphere_new_defaults :
    RTSphere.new.radius = 1 ∧ RTSphere.new.radius ≠ 0 ∧
    RTSphere.new.center = Vec3.mk 0 0 0 ∧
    RTSphere.new.material = RTMaterial.new ∧
    RTMaterial.new.color = Vec4.mk 0 0 0 0 ∧
    RTMaterial.new.emission_color = Vec4.mk 0 0 0 0 ∧
    RTMaterial.new.specular_color = Vec4.mk 0 0 0 0 ∧
    RTMaterial.new.smoothness = 0 := by
  refine ⟨rfl, by norm_num [RTSphere.new], rfl, rfl, rfl, rfl, rfl, rfl⟩

/-- Claim C1, counterexample: a builder with an empty stage list run
against a driver that reports link success.  `link` returns a
`Shader` — it does not abort — so "for every builder with empty stages,
`link()` fails fatally" is false: the code performs no emptiness check
of its own. -/
theorem C1_link_empty_counterexample :
    (ShaderBuilder.mk 1 []).shaders = [] ∧
    ((ShaderBuilder.mk 1 []).link glState0).toOption.isSome = true := ⟨rfl, rfl⟩

/-- Claim C1 (amended): for a builder whose accumulated stage list is
empty, `link()` performs no emptiness check; it links the program and
returns a `Shader` exactly when the driver reports link success, and
aborts exactly when the driver reports link failure. -/
theorem C1_link_empty_success_iff_driver (b : ShaderBuilder) (s : GLState)
    (_h : b.shaders = []) :
    (b.link s).toOption.isSome = s.linkStatus b.pid := by
  unfold ShaderBuilder.link ShaderBuilder.get_linker_err
  cases hs : s.linkStatus b.pid <;> simp [hs, Except.toOption]

theorem C1_link_empty_success_iff_driver_witness :
    (ShaderBuilder.mk 1 []).shaders = [] ∧
    ((ShaderBuilder.mk 1 []).link glState0).toOption.isSome =
      glState0.linkStatus (ShaderBuilder.mk 1 []).pid :=
  ⟨rfl, C1_link_empty_success_iff_driver (ShaderBuilder.mk 1 []) glState0 rfl⟩

/-- Claim C3: for every path whose extension parses to something other
than `"vert"` or `"frag"`, `attach_shader` aborts with the
extension-parse panic, and the GL state it aborts in is the input state
unchanged: no shader object was created and `compile` was never
reached. -/
theorem C3_attach_shader_unknown_ext (b : ShaderBuilder) (p : String)
    (fs : String → Option String) (s : GLState) (e : String)
    (he : pathExtension p = some e) (hv : e ≠ "vert") (hf : e ≠ "frag") :
    b.attach_shader p fs s =
      .error ("ERROR::SHADER::FAILED_TO_PARSE_EXTENSION\n" ++ e, s) := by
  unfold ShaderBuilder.attach_shader
  rw [he]
  unfold ShaderType.from_ext
  simp [hv, hf]

theorem C3_attach_shader_unknown_ext_witness :
    pathExtension "shaders/raytrace.glsl" = some "glsl" ∧
    (ShaderBuilder.mk 1 []).attach_shader "shaders/raytrace.glsl"
        (fun _ => none) glState0 =
      .error ("ERROR::SHADER::FAILED_TO_PARSE_EXTENSION\n" ++ "glsl", glState0) :=
  ⟨rfl, C3_attach_shader_unknown_ext (ShaderBuilder.mk 1 [])
    "shaders/raytrace.glsl" (fun _ => none) glState0 "glsl" rfl
    (by decide) (by decide)⟩

/-- Claim C5: the uniform writes issued by one `send_uniform` call with
instance name `p` are exactly one write per struct field, each to the
location looked up under the dotted name `p ++ "." ++ fieldName`, with
the GPU-side field names `maxBounces`, `raysPerFrag`, `divergeStrength`
for `RTSettings` and `screenSize`, `fov`, `focusDistance`, `pos`,
`localToWorld` for `RTCamera`. -/
theorem C5_uniform_names (st : RTSettings) (cam : RTCamera)
    (sh1 sh2 : Shader) (p q : String) (s t : GLState) :
    (st.send_uniform sh1 p s).uniformWrites = s.uniformWrites ++
      [(s.uniformLoc sh1.pid (p ++ ".maxBounces"), UniformValue.u1ui st.max_bounces),
       (s.uniformLoc sh1.pid (p ++ ".raysPerFrag"), UniformValue.u1ui st.rays_per_frag),
       (s.uniformLoc sh1.pid (p ++ ".divergeStrength"), UniformValue.f1 st.diverge_strength)] ∧
    (cam.send_uniform sh2 q t).uniformWrites = t.uniformWrites ++
      [(t.uniformLoc sh2.pid (q ++ ".screenSize"),
          UniformValue.f2 cam.screen_size.x cam.screen_size.y),
       (t.uniformLoc sh2.pid (q ++ ".fov"), UniformValue.f1 cam.fov),
       (t.uniformLoc sh2.pid (q ++ ".focusDistance"), UniformValue.f1 cam.focus_distance),
       (t.uniformLoc sh2.pid (q ++ ".pos"),
          UniformValue.f3 cam.pos.x cam.pos.y cam.pos.z),
       (t.uniformLoc sh2.pid (q ++ ".localToWorld"),
          UniformValue.m4 cam.local_to_world.entries)] := by
  constructor <;>
    simp [RTSettings.send_uniform, RTCamera.send_uniform, Shader.activate,
      Shader.get_uniform_location, Shader.set_uniform_mat4]

/-- Claim C2: both uniform-send operations restore the previously bound
program: after the call returns, the program bound before the call is
bound again, even though the target shader program was activated
(`UseProgram` was called with the target's pid, then with the saved
previous pid) during the call. -/
theorem C2_send_uniform_restores_binding (st : RTSettings) (cam : RTCamera)
    (sh1 sh2 : Shader) (n1 n2 : String) (s t : GLState)
    (hs : s.currentProgram < 2 ^ 32) (ht : t.currentProgram < 2 ^ 32) :
    ((st.send_uniform sh1 n1 s).currentProgram = s.currentProgram ∧
      (st.send_uniform sh1 n1 s).useProgramCalls =
        s.useProgramCalls ++ [sh1.pid, s.currentProgram]) ∧
    ((cam.send_uniform sh2 n2 t).currentProgram = t.currentProgram ∧
      (cam.send_uniform sh2 n2 t).useProgramCalls =
        t.useProgramCalls ++ [sh2.pid, t.currentProgram]) := by
  have h1 := u32_glint_roundtrip s.currentProgram hs
  have h2 := u32_glint_roundtrip t.currentProgram ht
  refine ⟨⟨?_, ?_⟩, ⟨?_, ?_⟩⟩ <;>
    simp [RTSettings.send_uniform, RTCamera.send_uniform, Shader.activate,
      Shader.get_uniform_location, Shader.set_uniform_mat4, h1, h2]

theorem C2_send_uniform_restores_binding_witness :
    glState0.currentProgram < 2 ^ 32 ∧
    ((RTSettings.mk 4 8 (1 / 2)).send_uniform (Shader.mk 3) "settings"
        glState0).currentProgram = glState0.currentProgram :=
  ⟨by decide,
   (C2_send_uniform_restores_binding (RTSettings.mk 4 8 (1 / 2))
      (RTCamera.mk (Vec2.mk 800 600) 90 1 (Vec3.mk 0 0 0) (Mat4.mk []))
      (Shader.mk 3) (Shader.mk 3) "settings" "camera" glState0 glState0
      (by decide) (by decide)).1.1⟩

/-- Claim C6: a successful `link()` attaches every accumulated stage to
the program (in order), issues the link call, deletes exactly the
accumulated stages (each exactly once, in order), and returns a
`Shader` carrying the builder's program handle. -/
theorem C6_link_success (b : ShaderBuilder) (s : GLState)
    (h : s.linkStatus b.pid = true) :
    (b.link s).toOption.map
        (fun r => (r.1.pid, r.2.attachCalls, r.2.linkCalls, r.2.deleteCalls)) =
      some (b.pid, s.attachCalls ++ b.shaders.map (fun sh => (b.pid, sh)),
        s.linkCalls ++ [b.pid], s.deleteCalls ++ b.shaders) := by
  unfold ShaderBuilder.link ShaderBuilder.get_linker_err
  simp [h, Except.toOption]

theorem C6_link_success_witness :
    glState0.linkStatus 1 = true ∧
    ((ShaderBuilder.mk 1 [5, 9]).link glState0).toOption.map
        (fun r => (r.1.pid, r.2.attachCalls, r.2.linkCalls, r.2.deleteCalls)) =
      some (1, [(1, 5), (1, 9)], [1], [5, 9]) :=
  ⟨rfl, C6_link_success (ShaderBuilder.mk 1 [5, 9]) glState0 rfl⟩

theorem compile_ok_shaders (b : ShaderBuilder) (src : String)
    (ty : ShaderType) (s : GLState) (b2 : ShaderBuilder) (s2 : GLState)
    (h : b.compile src ty s = .ok (b2, s2)) :
    b2.shaders = b.shaders ++ [s.nextShaderId] := by
  by_cases hn : Char.ofNat 0 ∈ src.data
  · simp [ShaderBuilder.compile, hn] at h
  · by_cases hc : s.compileStatus s.nextShaderId = true
    · simp [ShaderBuilder.compile, ShaderBuilder.get_shader_err, hn, hc] at h
      exact h.1.symm ▸ rfl
    · simp [ShaderBuilder.compile, ShaderBuilder.get_shader_err, hn, hc] at h

theorem compileList_ok_length (srcs : List (String × ShaderType)) :
    ∀ (b : ShaderBuilder) (s : GLState) (b2 : ShaderBuilder) (s2 : GLState),
    ShaderBuilder.compileList b srcs s = .ok (b2, s2) →
    b2.shaders.length = b.shaders.length + srcs.length := by
  induction srcs with
  | nil =>
    intro b s b2 s2 h
    unfold ShaderBuilder.compileList at h
    injection h with h1
    injection h1 with hb hs2
    rw [← hb]
    simp
  | cons hd tl ih =>
    obtain ⟨src, ty⟩ := hd
    intro b s b2 s2 h
    unfold ShaderBuilder.compileList at h
    cases hc : b.compile src ty s with
    | error e => rw [hc] at h; exact Except.noConfusion h
    | ok r =>
      obtain ⟨b1, s1⟩ := r
      rw [hc] at h
      have hlen := ih b1 s1 b2 s2 h
      have hsh := compile_ok_shaders b src ty s b1 s1 hc
      rw [hlen, hsh]
      simp
      omega

/-- Claim C7: the builder state machine.  `new()` yields a builder with a
freshly allocated program handle (new with respect to every handle the
well-formed driver state has already allocated) and zero accumulated
stages; every successful `compile` appends exactly one stage (the newly
created shader object) to the accumulated list; hence a chain of `n`
successful compiles starting from `new()` leaves exactly `n` stages. -/
theorem C7_builder_state_machine (s : GLState) (hwf : GLState.WF s) :
    (ShaderBuilder.new s).1.shaders = [] ∧
    (ShaderBuilder.new s).1.pid ∉ s.createdPrograms ∧
    (∀ b src ty st b2 st2, ShaderBuilder.compile b src ty st = .ok (b2, st2) →
      b2.shaders = b.shaders ++ [st.nextShaderId]) ∧
    (∀ srcs b2 s2,
      ShaderBuilder.compileList (ShaderBuilder.new s).1 srcs
          (ShaderBuilder.new s).2 = .ok (b2, s2) →
      b2.shaders.length = srcs.length) := by
  refine ⟨rfl, fun hmem => ?_, fun b src ty st b2 st2 h =>
    compile_ok_shaders b src ty st b2 st2 h, fun srcs b2 s2 h => ?_⟩
  · exact absurd (hwf _ hmem) (by simp [ShaderBuilder.new])
  · have := compileList_ok_length srcs _ _ b2 s2 h
    simpa [ShaderBuilder.new] using this

theorem C7_builder_state_machine_witness :
    GLState.WF glState0 ∧ (ShaderBuilder.new glState0).1.shaders = [] :=
  ⟨by intro p hp; simp [glState0] at hp,
   (C7_builder_state_machine glState0
      (by intro p hp; simp [glState0] at hp)).1⟩

/-- Claim C10: for every shader source containing a NUL byte, `compile`
panics (the `CString::new` result is unwrapped), and the source was
never submitted to the driver: at the moment of the abort no
`ShaderSource` and no `CompileShader` call has been added to the
trace. -/
theorem C10_compile_nul_panics (b : ShaderBuilder) (src : String)
    (ty : ShaderType) (s : GLState)
    (h : Char.ofNat 0 ∈ src.toList) :
    (errMsgOf (b.compile src ty s)).isSome = true ∧
    (errStateOf (b.compile src ty s)).map
        (fun st => (st.sourced, st.compileCalls)) =
      some (s.sourced, s.compileCalls) := by
  have hm : Char.ofNat 0 ∈ src.data := h
  unfold ShaderBuilder.compile
  simp [hm, errMsgOf, errStateOf]

theorem C10_compile_nul_panics_witness :
    (Char.ofNat 0 ∈ "void\x00main".toList) ∧
    (errMsgOf ((ShaderBuilder.mk 1 []).compile "void\x00main"
        ShaderType.Vertex glState0)).isSome = true :=
  ⟨by decide,
   (C10_compile_nul_panics (ShaderBuilder.mk 1 []) "void\x00main"
      ShaderType.Vertex glState0 (by decide)).1⟩

/-- Claim C4: for every shader source (with no NUL byte, so the driver is
reached) whose compilation the driver reports unsuccessful, `compile`
aborts, and the panic message contains the driver-provided info log
truncated to what fits the fixed 512-byte buffer (511 characters plus
the NUL terminator). -/
theorem C4_compile_failure_truncated_log (b : ShaderBuilder) (src : String)
    (ty : ShaderType) (s : GLState)
    (hnul : Char.ofNat 0 ∉ src.toList)
    (hfail : s.compileStatus s.nextShaderId = false) :
    (errMsgOf (b.compile src ty s)).map
        (fun msg =>
          containsSeq ((s.shaderLog s.nextShaderId).toList.take 511)
            msg.toList) =
      some true := by
  have hm : Char.ofNat 0 ∉ src.data := hnul
  have hkey : ∀ m2 : List Char,
      containsSeq ((s.shaderLog s.nextShaderId).data.take 511)
        ("ERROR::SHADER::COMPILATION_FAILED\n" ++
          glBufferRead (s.shaderLog s.nextShaderId) m2).data = true := by
    intro m2
    rw [String.data_append]
    unfold glBufferRead
    dsimp only [String.toList]
    rw [List.append_assoc, List.take_append_eq_append_take,
      List.take_of_length_le (List.length_take_le _ _)]
    exact containsSeq_append _ _ _
  unfold ShaderBuilder.compile ShaderBuilder.get_shader_err
  simp [hm, hfail, errMsgOf]
  exact hkey s.mem

theorem C4_compile_failure_truncated_log_witness :
    (Char.ofNat 0 ∉ "in vec3".toList) ∧
    (glStateFail.compileStatus glStateFail.nextShaderId = false) ∧
    (errMsgOf ((ShaderBuilder.mk 1 []).compile "in vec3"
        ShaderType.Fragment glStateFail)).map
        (fun msg =>
          containsSeq
            ((glStateFail.shaderLog glStateFail.nextShaderId).toList.take 511)
            msg.toList) =
      some true :=
  ⟨by decide, rfl,
   C4_compile_failure_truncated_log (ShaderBuilder.mk 1 []) "in vec3"
     ShaderType.Fragment glStateFail (by decide) rfl⟩
